import Mathlib

/-!
Shallow embedding of the email-agent orchestration core
(`email_agent.py`, `grading_serialization.py`) together with proofs of
the specification's testable properties.

Python strings are modelled as Lean `String`; `str.strip()` is modelled
by `pyStrip` (removal of surrounding ASCII whitespace).  Python `dict`s
produced by `json.loads` are modelled as association lists inside the
`Json` inductive; `json.loads` itself is an external library call and is
therefore a parameter (`ModelEnv.jsonLoads : String → Option Json`,
`none` meaning `json.JSONDecodeError`).  Exceptions are modelled with
`Except PyError`.
-/

namespace EmailAgentModel

/-- JSON values as produced by Python's `json.loads` (numbers restricted to
integers, the only kind the grading flow manipulates). -/
inductive Json where
  | null
  | bool (b : Bool)
  | num (n : Int)
  | str (s : String)
  | arr (elems : List Json)
  | obj (fields : List (String × Json))

/-- The Python exception classes the embedded code can raise. -/
inductive PyError where
  | jsonDecodeError
  | keyError (key : String)
  | typeError
  | valueError
  | attributeError
deriving DecidableEq, Repr

/-- ASCII whitespace as recognised by Python's `str.strip()`. -/
def isPyWS (c : Char) : Bool :=
  c = ' ' || c = '\t' || c = '\n' || c = '\r'

/-- Remove trailing, then leading, whitespace characters. -/
def stripChars (cs : List Char) : List Char :=
  ((cs.reverse.dropWhile isPyWS).reverse).dropWhile isPyWS

/-- Model of Python `str.strip()`. -/
def pyStrip (s : String) : String :=
  ⟨stripChars s.data⟩

/-- Model of Python `sep.join(xs)`. -/
def pyJoin (sep : String) : List String → String
  | [] => ""
  | [x] => x
  | x :: y :: rest => x ++ sep ++ pyJoin sep (y :: rest)

/-- Dictionary lookup (`d[k]` / `d.get(k)`) on the association list of a
JSON object. -/
def jGet (fields : List (String × Json)) (key : String) : Option Json :=
  match fields with
  | [] => none
  | (k, v) :: rest => if k = key then some v else jGet rest key

/-- Numeric value of a digit string (helper for `pyIntOfString`). -/
def digitsVal (cs : List Char) : Int :=
  cs.foldl (fun a c => a * 10 + ((c.toNat : Int) - ('0'.toNat : Int))) 0

/-- Model of Python `int(s)` on a string: surrounding whitespace is
ignored, an optional sign precedes a non-empty digit run. -/
def pyIntOfString (s : String) : Option Int :=
  match stripChars s.data with
  | [] => none
  | '-' :: rest =>
      if !rest.isEmpty && rest.all Char.isDigit then some (-(digitsVal rest)) else none
  | '+' :: rest =>
      if !rest.isEmpty && rest.all Char.isDigit then some (digitsVal rest) else none
  | cs =>
      if cs.all Char.isDigit then some (digitsVal cs) else none

/-- Model of Python `int(x)` on a JSON value: `int` is the identity,
`bool` maps to 0/1, an integer-shaped string parses (`ValueError`
otherwise), every other value raises `TypeError`. -/
def pyIntCoerce : Json → Except PyError Int
  | .num n => .ok n
  | .bool b => .ok (if b then 1 else 0)
  | .str s =>
      match pyIntOfString s with
      | some n => .ok n
      | none => .error .valueError
  | _ => .error .typeError

-- ----------------- Data models (email_agent.py) -----------------

structure EmailMessage where
  sender : String
  subject : String
  body : String
deriving DecidableEq, Repr

/-- One parsed rubric score.  Python's dataclass annotates `name : str`
but does not enforce it; the parser stores `item["name"]` unchanged, so
the field holds an arbitrary JSON value here. -/
structure RubricScoreResult where
  name : Json
  score : Int
  max_score : Int

structure GradingResult where
  scenario_name : String
  scores : List RubricScoreResult
  total_score : Int
  max_total_score : Int
  overall_comment : String
  revision_example : String
  model_info : Json
  raw_json : Json

structure EvaluationAndReply where
  grading : GradingResult
  counterpart_reply : String

-- ----------------- Rubric (rubric.py) -----------------

structure RubricItem where
  name : String
  description : String
  max_score : Int
deriving DecidableEq, Repr

def GLOBAL_RUBRIC : List RubricItem :=
  [ ⟨"Tone & respect",
     "Email is polite and respectful, not too casual or emotional.", 5⟩,
    ⟨"Clarity & conciseness",
     "Message is easy to understand and not too long.", 5⟩,
    ⟨"Structure",
     "Email has a clear greeting, organized body, and proper closing.", 5⟩,
    ⟨"Professionalism & responsibility",
     "Student takes responsibility where needed and shows commitment.", 5⟩,
    ⟨"Task fulfillment",
     "Student clearly answers the request or makes a clear ask.", 5⟩ ]

-- ----------------- Thread serialization (_thread_to_text) -----------------

/-- The f-string header of one rendered message, `.strip()` applied as in
the source. -/
def headerLine (idx : Nat) (m : EmailMessage) : String :=
  pyStrip ("Message " ++ toString idx ++ " — From: " ++ m.sender
    ++ " | Subject: " ++ m.subject)

/-- The per-message strings accumulated by the loop of
`_thread_to_text` (`f"{header}\n{body}\n"`). -/
def threadLines : Nat → List EmailMessage → List String
  | _, [] => []
  | idx, m :: rest =>
      (headerLine idx m ++ "\n" ++ pyStrip m.body ++ "\n")
        :: threadLines (idx + 1) rest

/-- Model of `_thread_to_text`. -/
def _thread_to_text (thread : List EmailMessage) : String :=
  match thread with
  | [] => "(no prior emails yet)"
  | _ => pyStrip (pyJoin "\n" (threadLines 1 thread))

-- ----------------- Scenario -----------------

/-- Modelled from the spec: the `Scenario` record of the missing
`scenarios` module (§6 "Scenario record": name, description,
environment, counterpart_role, counterpart_style, student_task,
grading_focus (optional), starter_sender_name, starter_subject,
starter_email_body (optional), starter_email_generation_hint
(optional)).  Optional fields are `Option String`; `none` and `some ""`
are both falsy under Python truthiness tests. -/
structure Scenario where
  name : String
  description : String
  environment : String
  counterpart_role : String
  counterpart_style : String
  student_task : String
  grading_focus : Option String
  starter_sender_name : String
  starter_subject : String
  starter_email_body : Option String
  starter_email_generation_hint : Option String
deriving DecidableEq, Repr

/-- Python truthiness of an optional string: the value when it is a
non-empty string, otherwise nothing. -/
def optTruthy : Option String → Option String
  | none => none
  | some s => if s = "" then none else some s

/-- Python `s or dflt` for plain strings. -/
def strOr (s dflt : String) : String :=
  if s = "" then dflt else s

-- ----------------- Backend invocations -----------------

/-- One round-trip to the text-generation backend, tagged by the prompt
template used and carrying the per-call template variables (the
remaining variables are fixed scenario fields). -/
inductive Invocation where
  | starterPrompt (emailThread : String) (instructions : String)
  | counterpartReply (emailThread : String) (instructions : String)
  | grading (emailThread : String) (studentEmail : String) (rubricText : String)
deriving DecidableEq, Repr

/-- The external collaborators of the orchestration core: the
text-generation backend (prompt text in, completion text out), Python's
`json.loads` (`none` = `json.JSONDecodeError`), and the `model_info`
dictionary assembled from the backend configuration (it involves
`getattr` and a float temperature, both outside the claims). -/
structure ModelEnv where
  backend : Invocation → String
  jsonLoads : String → Option Json
  modelInfo : Json

-- ----------------- Grading parse step -----------------

/-- `data.get(key, [])` followed by iteration of the result, as done for
the score-entry lists.  A missing key yields no iterations; a non-list
value either yields no iterations (empty string, empty dict) or raises
`TypeError` — for a non-empty string or dict the first iterated element
is a string whose `item[...]` subscript raises `TypeError`, and any
other value is not iterable. -/
def iterItems (fields : List (String × Json)) (key : String) :
    Except PyError (List Json) :=
  match jGet fields key with
  | none => .ok []
  | some (.arr xs) => .ok xs
  | some (.str s) => if s = "" then .ok [] else .error .typeError
  | some (.obj fs) => if fs.isEmpty then .ok [] else .error .typeError
  | some _ => .error .typeError

/-- One iteration of the scores loop in `grade_student_email`:
`int(item["score"])`, then `int(item.get("max_score", 5))`, then
`item["name"]` (evaluated in that source order). -/
def parseScoreEntry (item : Json) : Except PyError RubricScoreResult :=
  match item with
  | .obj fields =>
      match jGet fields "score" with
      | none => .error (.keyError "score")
      | some sv =>
          match pyIntCoerce sv with
          | .error e => .error e
          | .ok score =>
              match pyIntCoerce ((jGet fields "max_score").getD (.num 5)) with
              | .error e => .error e
              | .ok maxScore =>
                  match jGet fields "name" with
                  | none => .error (.keyError "name")
                  | some nm => .ok ⟨nm, score, maxScore⟩
  | _ => .error .typeError

/-- The scores loop of `grade_student_email`: builds the result list and
the running `total_score` / `max_total_score` sums, stopping at the
first raising entry. -/
def gradeLoop : List Json → Except PyError (List RubricScoreResult × Int × Int)
  | [] => .ok ([], 0, 0)
  | item :: rest =>
      match parseScoreEntry item with
      | .error e => .error e
      | .ok r =>
          match gradeLoop rest with
          | .error e => .error e
          | .ok (scores, t, m) => .ok (r :: scores, r.score + t, r.max_score + m)

/-- `data.get(key, "").strip()`: empty string when the key is absent,
the trimmed string when present as a string, `AttributeError` when the
present value is not a string. -/
def optStrField (fields : List (String × Json)) (key : String) :
    Except PyError String :=
  match jGet fields key with
  | none => .ok ""
  | some (.str s) => .ok (pyStrip s)
  | some _ => .error .attributeError

/-- The grading parse step of `grade_student_email` (everything after
`raw_output` is produced): `json.loads`, the scores loop with running
totals, the `max_total_score` fallback branch, and the optional comment
fields.  `none` input means `json.loads` raised; a parsed non-object
raises `AttributeError` at `data.get`. -/
def parseGradingData (scenarioName : String) (modelInfo : Json)
    (odata : Option Json) : Except PyError GradingResult :=
  match odata with
  | none => .error .jsonDecodeError
  | some data =>
      match data with
      | .obj fields =>
          match iterItems fields "scores" with
          | .error e => .error e
          | .ok items =>
              match gradeLoop items with
              | .error e => .error e
              | .ok (scores, totalScore, maxAcc) =>
                  let maxTotalScore :=
                    if maxAcc = 0 && !scores.isEmpty then
                      (scores.map (·.max_score)).sum
                    else maxAcc
                  match optStrField fields "overall_comment" with
                  | .error e => .error e
                  | .ok overallComment =>
                      match optStrField fields "revision_example" with
                      | .error e => .error e
                      | .ok revisionExample =>
                          .ok { scenario_name := scenarioName
                                scores := scores
                                total_score := totalScore
                                max_total_score := maxTotalScore
                                overall_comment := overallComment
                                revision_example := revisionExample
                                model_info := modelInfo
                                raw_json := data }
      | _ => .error .attributeError

-- ----------------- EmailAgent operations -----------------

namespace EmailAgent

/-- The rubric bullet line of `grade_student_email`. -/
def rubricLine (item : RubricItem) : String :=
  "- " ++ item.name ++ " (1–" ++ toString item.max_score ++ "): "
    ++ item.description

/-- `"\n".join(rubric_lines)`. -/
def rubricText (rubric : List RubricItem) : String :=
  pyJoin "\n" (rubric.map rubricLine)

/-- Model of `EmailAgent.build_starter_thread`.  Returns the produced
thread together with the list of backend invocations performed. -/
def build_starter_thread (s : Scenario) (env : ModelEnv) :
    List EmailMessage × List Invocation :=
  match optTruthy s.starter_email_body with
  | some body =>
      ([⟨s.starter_sender_name, s.starter_subject, body⟩], [])
  | none =>
      let combined :=
        pyStrip (pyStrip s.counterpart_style ++ "\n\n"
          ++ pyStrip (s.starter_email_generation_hint.getD ""))
      let instructions :=
        strOr combined "Write a simple starter email for this scenario."
      let inv := Invocation.starterPrompt (_thread_to_text []) instructions
      ([⟨s.starter_sender_name, s.starter_subject, env.backend inv⟩], [inv])

/-- The instructions payload field of `reply_as_counterpart`. -/
def replyInstructions (s : Scenario) (instructions : Option String) : String :=
  match optTruthy instructions with
  | some i => pyStrip i
  | none => strOr s.counterpart_style "Respond as a professional manager."

/-- Model of `EmailAgent.reply_as_counterpart`. -/
def reply_as_counterpart (s : Scenario) (env : ModelEnv)
    (thread : List EmailMessage) (instructions : Option String) :
    String × List Invocation :=
  let inv := Invocation.counterpartReply (_thread_to_text thread)
    (replyInstructions s instructions)
  (env.backend inv, [inv])

/-- Model of `EmailAgent.grade_student_email`: one grading invocation,
`raw_output.strip()`, `json.loads`, then the parse step. -/
def grade_student_email (s : Scenario) (env : ModelEnv)
    (thread : List EmailMessage) (studentEmail : String)
    (rubric : List RubricItem) :
    Except PyError GradingResult × List Invocation :=
  let inv := Invocation.grading (_thread_to_text thread)
    (pyStrip studentEmail) (rubricText rubric)
  let rawOutput := pyStrip (env.backend inv)
  (parseGradingData s.name env.modelInfo (env.jsonLoads rawOutput), [inv])

/-- Model of `EmailAgent.evaluate_and_respond`.  A raised grading error
propagates before any reply invocation happens. -/
def evaluate_and_respond (s : Scenario) (env : ModelEnv)
    (priorThread : List EmailMessage) (studentEmail : EmailMessage)
    (rubric : List RubricItem) :
    Except PyError EvaluationAndReply × List Invocation :=
  match grade_student_email s env priorThread studentEmail.body rubric with
  | (.error e, tr) => (.error e, tr)
  | (.ok grading, tr) =>
      let fullThread := priorThread ++ [studentEmail]
      let (reply, tr2) := reply_as_counterpart s env fullThread none
      (.ok ⟨grading, reply⟩, tr ++ tr2)

end EmailAgent

-- ----------------- grading_serialization.py -----------------

/-- One `{"name": ..., "score": ..., "max_score": ...}` entry of the
stored `rubric_scores` list. -/
def scoreToStorage (s : RubricScoreResult) : Json :=
  .obj [("name", s.name), ("score", .num s.score),
        ("max_score", .num s.max_score)]

/-- Model of `grading_result_to_storage`. -/
def grading_result_to_storage (gr : GradingResult) : Json :=
  .obj [("version", .num 1),
        ("scenario_name", .str gr.scenario_name),
        ("rubric_scores", .arr (gr.scores.map scoreToStorage)),
        ("total_score", .num gr.total_score),
        ("max_total_score", .num gr.max_total_score),
        ("overall_comment", .str gr.overall_comment),
        ("revision_example", .str gr.revision_example),
        ("model_info", gr.model_info),
        ("raw_llm_output", gr.raw_json)]

/-- One element of the list comprehension in
`grading_result_from_storage`: `item["name"]`, `int(item["score"])`,
`int(item.get("max_score", 5))` (evaluated in that source order). -/
def storageScoreEntry (item : Json) : Except PyError RubricScoreResult :=
  match item with
  | .obj fields =>
      match jGet fields "name" with
      | none => .error (.keyError "name")
      | some nm =>
          match jGet fields "score" with
          | none => .error (.keyError "score")
          | some sv =>
              match pyIntCoerce sv with
              | .error e => .error e
              | .ok score =>
                  match pyIntCoerce ((jGet fields "max_score").getD (.num 5)) with
                  | .error e => .error e
                  | .ok maxScore => .ok ⟨nm, score, maxScore⟩
  | _ => .error .typeError

/-- The `rubric_scores` list comprehension. -/
def storageScores : List Json → Except PyError (List RubricScoreResult)
  | [] => .ok []
  | item :: rest =>
      match storageScoreEntry item with
      | .error e => .error e
      | .ok r =>
          match storageScores rest with
          | .error e => .error e
          | .ok rs => .ok (r :: rs)

/-- Model of `grading_result_from_storage`.  The Python function indexes
an arbitrary dict; `scenario_name` is required here to be a JSON string
(the only shape `grading_result_to_storage` ever writes, and the only
one `GradingResult.scenario_name : String` can hold). -/
def grading_result_from_storage (data : Json) : Except PyError GradingResult :=
  match data with
  | .obj fields =>
      match iterItems fields "rubric_scores" with
      | .error e => .error e
      | .ok items =>
          match storageScores items with
          | .error e => .error e
          | .ok scores =>
              match pyIntCoerce ((jGet fields "total_score").getD
                  (.num ((scores.map (·.score)).sum))) with
              | .error e => .error e
              | .ok totalScore =>
                  match pyIntCoerce ((jGet fields "max_total_score").getD
                      (.num ((scores.map (·.max_score)).sum))) with
                  | .error e => .error e
                  | .ok maxTotalScore =>
                      match jGet fields "scenario_name" with
                      | none => .error (.keyError "scenario_name")
                      | some (.str sn) =>
                          match optStrField fields "overall_comment" with
                          | .error e => .error e
                          | .ok overallComment =>
                              match optStrField fields "revision_example" with
                              | .error e => .error e
                              | .ok revisionExample =>
                                  .ok { scenario_name := sn
                                        scores := scores
                                        total_score := totalScore
                                        max_total_score := maxTotalScore
                                        overall_comment := overallComment
                                        revision_example := revisionExample
                                        model_info :=
                                          (jGet fields "model_info").getD (.obj [])
                                        raw_json :=
                                          (jGet fields "raw_llm_output").getD (.obj []) }
                      | some _ => .error .typeError
  | _ => .error .attributeError

-- ----------------- Derived predicates and comparison variants -----------------

/-- `true` on `ok`, `false` on `error` (i.e. "the call did not raise"). -/
def exOk {ε α : Type} : Except ε α → Bool
  | .ok _ => true
  | .error _ => false

/-- Whether Python `int(x)` succeeds on this JSON value. -/
def jsonIntCoercible (j : Json) : Bool :=
  exOk (pyIntCoerce j)

/-- A scores entry on which the parsing loop raises: not an object, or
`score` absent or not integer-coercible, or `max_score` present but not
integer-coercible, or `name` absent. -/
def entryIllFormed (item : Json) : Bool :=
  match item with
  | .obj fields =>
      (match jGet fields "score" with
       | none => true
       | some sv => !jsonIntCoercible sv)
      || (match jGet fields "max_score" with
          | none => false
          | some mv => !jsonIntCoercible mv)
      || (jGet fields "name").isNone
  | _ => true

/-- An optional free-text field on which `data.get(key, "").strip()`
raises: present but not a string. -/
def strFieldIllFormed (fields : List (String × Json)) (key : String) : Bool :=
  match jGet fields key with
  | none => false
  | some (.str _) => false
  | some _ => true

/-- A `scores` value on which extraction or the loop raises: present but
neither an array nor trivially-empty iterable, or an array with an
ill-formed entry. -/
def scoresIllFormed (fields : List (String × Json)) : Bool :=
  match jGet fields "scores" with
  | none => false
  | some (.arr xs) => xs.any entryIllFormed
  | some (.str s) => !decide (s = "")
  | some (.obj fs) => !fs.isEmpty
  | some _ => true

/-- Exact characterization of when the grading parse step raises. -/
def gradingParseFails (odata : Option Json) : Bool :=
  match odata with
  | none => true
  | some (.obj fields) =>
      scoresIllFormed fields
      || strFieldIllFormed fields "overall_comment"
      || strFieldIllFormed fields "revision_example"
  | some _ => true

/-- The grading parse step with the `max_total_score == 0` fallback
branch removed, for the refinement comparison. -/
def parseGradingDataNoFallback (scenarioName : String) (modelInfo : Json)
    (odata : Option Json) : Except PyError GradingResult :=
  match odata with
  | none => .error .jsonDecodeError
  | some data =>
      match data with
      | .obj fields =>
          match iterItems fields "scores" with
          | .error e => .error e
          | .ok items =>
              match gradeLoop items with
              | .error e => .error e
              | .ok (scores, totalScore, maxAcc) =>
                  match optStrField fields "overall_comment" with
                  | .error e => .error e
                  | .ok overallComment =>
                      match optStrField fields "revision_example" with
                      | .error e => .error e
                      | .ok revisionExample =>
                          .ok { scenario_name := scenarioName
                                scores := scores
                                total_score := totalScore
                                max_total_score := maxAcc
                                overall_comment := overallComment
                                revision_example := revisionExample
                                model_info := modelInfo
                                raw_json := data }
      | _ => .error .attributeError

/-- `grade_student_email` with the fallback branch removed, for the
refinement comparison. -/
def grade_student_email_no_fallback (s : Scenario) (env : ModelEnv)
    (thread : List EmailMessage) (studentEmail : String)
    (rubric : List RubricItem) :
    Except PyError GradingResult × List Invocation :=
  let inv := Invocation.grading (_thread_to_text thread)
    (pyStrip studentEmail) (EmailAgent.rubricText rubric)
  let rawOutput := pyStrip (env.backend inv)
  (parseGradingDataNoFallback s.name env.modelInfo (env.jsonLoads rawOutput), [inv])

-- ----------------- Claimed and amended thread formats -----------------

/-- The header text exactly as the claim words it (`Message N — From:
<sender> | Subject: <subject>`, no trimming). -/
def claimHeader (idx : Nat) (m : EmailMessage) : String :=
  "Message " ++ toString idx ++ " — From: " ++ m.sender
    ++ " | Subject: " ++ m.subject

/-- Per-message blocks under the claimed format: untrimmed header line,
then the trimmed body. -/
def claimBlocks : Nat → List EmailMessage → List String
  | _, [] => []
  | idx, m :: rest =>
      (claimHeader idx m ++ "\n" ++ pyStrip m.body) :: claimBlocks (idx + 1) rest

/-- The thread serialization exactly as the claim words it: blocks in
thread order joined by blank lines. -/
def claimedThreadText (thread : List EmailMessage) : String :=
  pyJoin "\n\n" (claimBlocks 1 thread)

/-- Per-message blocks under the amended format: the header
interpolation trimmed of surrounding whitespace, then the trimmed
body. -/
def amendedBlocks : Nat → List EmailMessage → List String
  | _, [] => []
  | idx, m :: rest =>
      (headerLine idx m ++ "\n" ++ pyStrip m.body) :: amendedBlocks (idx + 1) rest

/-- The amended thread serialization: trimmed-header blocks joined by
blank lines, the whole text finally trimmed of surrounding
whitespace. -/
def amendedThreadText (thread : List EmailMessage) : String :=
  pyStrip (pyJoin "\n\n" (amendedBlocks 1 thread))

-- ----------------- Concrete fixtures for witnesses and counterexamples ----

/-- The end-to-end scenario of spec §8. -/
def wScenario : Scenario :=
  ⟨"missed_standup", "", "remote team", "manager", "calm",
   "explain absence", none, "Manager", "Missed Standup",
   some "Hi, you missed standup today. Please explain.", none⟩

/-- A backend environment whose output never parses as JSON. -/
def wEnvBad : ModelEnv :=
  ⟨fun _ => "not json", fun _ => none, .null⟩

/-- The §8 well-formed grading output, already parsed. -/
def wGradingJson : Json :=
  .obj [("scores", .arr [.obj [("name", .str "Tone"), ("score", .num 4),
                               ("max_score", .num 5)]]),
        ("overall_comment", .str "Good"),
        ("revision_example", .str "...")]

/-- A backend environment whose grading output parses to
`wGradingJson`. -/
def wEnvOk : ModelEnv :=
  ⟨fun _ => "out", fun _ => some wGradingJson, .null⟩

def wStudent : EmailMessage :=
  ⟨"Student", "Re: Missed Standup", " body "⟩

/-- The grading result produced from `wGradingJson`. -/
def wGrading : GradingResult :=
  { scenario_name := "missed_standup"
    scores := [⟨.str "Tone", 4, 5⟩]
    total_score := 4
    max_total_score := 5
    overall_comment := "Good"
    revision_example := "..."
    model_info := .null
    raw_json := wGradingJson }

/-- A grading result whose `overall_comment` carries surrounding
whitespace. -/
def c2Bad : GradingResult :=
  { scenario_name := "s"
    scores := [⟨.str "T", 4, 5⟩]
    total_score := 4
    max_total_score := 5
    overall_comment := " x "
    revision_example := ""
    model_info := .null
    raw_json := .obj [] }

/-- A parsed grading object whose single entry has a `name` and an
integer-coercible `score` but a non-coercible `max_score`. -/
def c3Fields : List (String × Json) :=
  [("scores", .arr [.obj [("name", .str "Tone"), ("score", .num 4),
                          ("max_score", .str "abc")]])]

def c3Data : Option Json := some (.obj c3Fields)

/-- A one-message thread whose subject ends in a space. -/
def c6Thread : List EmailMessage := [⟨"A", "B ", "hi"⟩]

/-- A parsed grading object without a `scores` key whose
`overall_comment` is not a string. -/
def c10Fields : List (String × Json) := [("overall_comment", .num 3)]

/-- A parsed grading object with an empty scores array, a padded
`overall_comment` and no `revision_example`. -/
def c8Fields : List (String × Json) :=
  [("scores", .arr []), ("overall_comment", .str "  Good  ")]

/-- The grading result parsed from `c8Fields`. -/
def c8Result : GradingResult :=
  { scenario_name := "s"
    scores := []
    total_score := 0
    max_total_score := 0
    overall_comment := "Good"
    revision_example := ""
    model_info := .null
    raw_json := .obj c8Fields }

-- ===================== Theorems =====================

-- ----------------- Shared lemmas -----------------

theorem gradeLoop_sums :
    ∀ (items : List Json) (scores : List RubricScoreResult) (t m : Int),
      gradeLoop items = .ok (scores, t, m) →
      t = (scores.map (·.score)).sum ∧ m = (scores.map (·.max_score)).sum := by
  intro items
  induction items with
  | nil =>
      intro scores t m h
      simp only [gradeLoop, Except.ok.injEq, Prod.mk.injEq] at h
      obtain ⟨h1, h2, h3⟩ := h
      subst h1; subst h2; subst h3
      simp
  | cons item rest ih =>
      intro scores t m h
      simp only [gradeLoop] at h
      cases hp : parseScoreEntry item with
      | error e => rw [hp] at h; simp at h
      | ok r =>
          rw [hp] at h
          cases hg : gradeLoop rest with
          | error e => rw [hg] at h; simp at h
          | ok tri =>
              obtain ⟨s0, t0, m0⟩ := tri
              rw [hg] at h
              simp only [Except.ok.injEq, Prod.mk.injEq] at h
              obtain ⟨h1, h2, h3⟩ := h
              obtain ⟨ht0, hm0⟩ := ih s0 t0 m0 hg
              subst h1; subst h2; subst h3
              constructor <;> simp [ht0, hm0]

theorem parseGradingData_ok_inv (n : String) (mi : Json)
    (fields : List (String × Json)) (r : GradingResult)
    (h : parseGradingData n mi (some (.obj fields)) = .ok r) :
    ∃ items scores t m,
      iterItems fields "scores" = .ok items ∧
      gradeLoop items = .ok (scores, t, m) ∧
      optStrField fields "overall_comment" = .ok r.overall_comment ∧
      optStrField fields "revision_example" = .ok r.revision_example ∧
      r.scenario_name = n ∧ r.scores = scores ∧ r.total_score = t ∧
      r.max_total_score =
        (if (decide (m = 0) && !scores.isEmpty) = true
         then (scores.map (·.max_score)).sum else m) ∧
      r.model_info = mi ∧ r.raw_json = .obj fields := by
  simp only [parseGradingData] at h
  split at h
  · simp at h
  rename_i items hit
  split at h
  · simp at h
  rename_i scores t m hgl
  split at h
  · simp at h
  rename_i oc hoc
  split at h
  · simp at h
  rename_i re hre
  simp only [Except.ok.injEq] at h
  subst h
  exact ⟨items, scores, t, m, hit, hgl, hoc, hre,
    rfl, rfl, rfl, rfl, rfl, rfl⟩

theorem parseGradingData_sums (n : String) (mi : Json) (odata : Option Json)
    (r : GradingResult) (h : parseGradingData n mi odata = .ok r) :
    r.total_score = (r.scores.map (·.score)).sum ∧
    r.max_total_score = (r.scores.map (·.max_score)).sum := by
  cases odata with
  | none => simp [parseGradingData] at h
  | some data =>
      cases data with
      | obj fields =>
          obtain ⟨items, scores, t, m, hit, hgl, hoc, hre, hn, hsc, ht, hm, hmi, hrj⟩ :=
            parseGradingData_ok_inv n mi fields r h
          obtain ⟨hts, hms⟩ := gradeLoop_sums items scores t m hgl
          subst hms
          refine ⟨?_, ?_⟩
          · rw [ht, hsc, hts]
          · rw [hm, hsc, ite_self]
      | null => simp [parseGradingData] at h
      | bool b => simp [parseGradingData] at h
      | num x => simp [parseGradingData] at h
      | str s2 => simp [parseGradingData] at h
      | arr xs => simp [parseGradingData] at h

-- ----------------- C7 -----------------

/-- C7: serializing an empty thread returns exactly the literal string
"(no prior emails yet)". -/
theorem empty_thread_placeholder :
    _thread_to_text [] = "(no prior emails yet)" := rfl

-- ----------------- C1 -----------------

/-- C1: whenever the grading invocation's parse step returns a
GradingResult, its `total_score` is the sum of the entry scores and its
`max_total_score` is the sum of the entry `max_score` values. -/
theorem grade_student_email_totals_are_sums (s : Scenario) (env : ModelEnv)
    (thread : List EmailMessage) (studentEmail : String)
    (rubric : List RubricItem) (r : GradingResult)
    (h : (EmailAgent.grade_student_email s env thread studentEmail rubric).1 = .ok r) :
    r.total_score = (r.scores.map (·.score)).sum ∧
    r.max_total_score = (r.scores.map (·.max_score)).sum :=
  parseGradingData_sums s.name env.modelInfo _ r h

/-- Witness for C1: the §8 end-to-end grading output, evaluated
concretely. -/
theorem grade_student_email_totals_are_sums_witness :
    (EmailAgent.grade_student_email wScenario wEnvOk [] "hi" GLOBAL_RUBRIC).1 =
      .ok wGrading ∧
    wGrading.total_score = (wGrading.scores.map (·.score)).sum ∧
    wGrading.max_total_score = (wGrading.scores.map (·.max_score)).sum :=
  ⟨rfl, grade_student_email_totals_are_sums wScenario wEnvOk [] "hi"
    GLOBAL_RUBRIC wGrading rfl⟩

-- ----------------- C9 -----------------

theorem parseGradingData_eq_noFallback (n : String) (mi : Json)
    (odata : Option Json) :
    parseGradingData n mi odata = parseGradingDataNoFallback n mi odata := by
  cases odata with
  | none => rfl
  | some data =>
      cases data with
      | obj fields =>
          simp only [parseGradingData, parseGradingDataNoFallback]
          split
          · rfl
          rename_i items hit
          split
          · rfl
          rename_i scores t m hgl
          have hms := (gradeLoop_sums items scores t m hgl).2
          subst hms
          simp [ite_self]
      | null => rfl
      | bool b => rfl
      | num x => rfl
      | str s2 => rfl
      | arr xs => rfl

/-- C9: removing the `max_total_score == 0` fallback branch never
changes the result of `grade_student_email`. -/
theorem fallback_branch_is_noop (s : Scenario) (env : ModelEnv)
    (thread : List EmailMessage) (studentEmail : String)
    (rubric : List RubricItem) :
    EmailAgent.grade_student_email s env thread studentEmail rubric =
      grade_student_email_no_fallback s env thread studentEmail rubric := by
  simp only [EmailAgent.grade_student_email, grade_student_email_no_fallback,
    parseGradingData_eq_noFallback]

-- ----------------- C4 -----------------

/-- C4: a scenario with a non-empty pre-authored starter body performs
no model invocation in `build_starter_thread` and yields exactly one
message from `starter_sender_name` with `starter_subject` wrapping the
body unchanged. -/
theorem build_starter_thread_short_circuit (s : Scenario) (env : ModelEnv)
    (body : String) (hb : s.starter_email_body = some body) (hne : body ≠ "") :
    EmailAgent.build_starter_thread s env =
      ([⟨s.starter_sender_name, s.starter_subject, body⟩], []) := by
  unfold EmailAgent.build_starter_thread
  rw [hb]
  simp [optTruthy, hne]

/-- Witness for C4 at the §8 scenario. -/
theorem build_starter_thread_short_circuit_witness :
    wScenario.starter_email_body =
      some "Hi, you missed standup today. Please explain." ∧
    "Hi, you missed standup today. Please explain." ≠ "" ∧
    EmailAgent.build_starter_thread wScenario wEnvBad =
      ([⟨"Manager", "Missed Standup",
         "Hi, you missed standup today. Please explain."⟩], []) :=
  ⟨rfl, by decide,
   build_starter_thread_short_circuit wScenario wEnvBad _ rfl (by decide)⟩

-- ----------------- C5 -----------------

/-- C5: `evaluate_and_respond` grades the student's body against the
prior thread only, then requests the counterpart reply over the prior
thread with the student's email appended; the grading invocation
precedes the reply invocation and the result carries both outputs. -/
theorem evaluate_and_respond_grades_then_replies (s : Scenario) (env : ModelEnv)
    (prior : List EmailMessage) (student : EmailMessage)
    (rubric : List RubricItem) (r : EvaluationAndReply)
    (h : (EmailAgent.evaluate_and_respond s env prior student rubric).1 = .ok r) :
    (EmailAgent.evaluate_and_respond s env prior student rubric).2 =
      [Invocation.grading (_thread_to_text prior) (pyStrip student.body)
         (EmailAgent.rubricText rubric),
       Invocation.counterpartReply (_thread_to_text (prior ++ [student]))
         (EmailAgent.replyInstructions s none)] ∧
    (EmailAgent.grade_student_email s env prior student.body rubric).1 =
      .ok r.grading ∧
    r.counterpart_reply =
      env.backend (Invocation.counterpartReply
        (_thread_to_text (prior ++ [student]))
        (EmailAgent.replyInstructions s none)) := by
  simp only [EmailAgent.evaluate_and_respond, EmailAgent.grade_student_email,
    EmailAgent.reply_as_counterpart] at h ⊢
  split at h
  · simp at h
  rename_i g tr heq
  simp only [Except.ok.injEq] at h
  subst h
  simp only [Prod.mk.injEq] at heq
  obtain ⟨hg, htr⟩ := heq
  subst htr
  refine ⟨rfl, ?_, rfl⟩
  rw [hg]

/-- Witness for C5 at the §8 scenario with the well-formed grading
output. -/
theorem evaluate_and_respond_grades_then_replies_witness :
    (EmailAgent.evaluate_and_respond wScenario wEnvOk [] wStudent GLOBAL_RUBRIC).2 =
      [Invocation.grading (_thread_to_text []) (pyStrip wStudent.body)
         (EmailAgent.rubricText GLOBAL_RUBRIC),
       Invocation.counterpartReply (_thread_to_text ([] ++ [wStudent]))
         (EmailAgent.replyInstructions wScenario none)] ∧
    (EmailAgent.grade_student_email wScenario wEnvOk [] wStudent.body
      GLOBAL_RUBRIC).1 =
      .ok (⟨wGrading, "out"⟩ : EvaluationAndReply).grading ∧
    (⟨wGrading, "out"⟩ : EvaluationAndReply).counterpart_reply =
      wEnvOk.backend (Invocation.counterpartReply
        (_thread_to_text ([] ++ [wStudent]))
        (EmailAgent.replyInstructions wScenario none)) :=
  evaluate_and_respond_grades_then_replies wScenario wEnvOk [] wStudent
    GLOBAL_RUBRIC ⟨wGrading, "out"⟩ rfl

-- ----------------- C2 -----------------

theorem storageScoreEntry_roundtrip (sr : RubricScoreResult) :
    storageScoreEntry (scoreToStorage sr) = .ok sr := rfl

theorem storageScores_map (scores : List RubricScoreResult) :
    storageScores (scores.map scoreToStorage) = .ok scores := by
  induction scores with
  | nil => rfl
  | cons sr rest ih =>
      simp only [List.map_cons, storageScores, storageScoreEntry_roundtrip, ih]

/-- What the storage round trip actually produces: the same result with
`overall_comment` and `revision_example` re-trimmed. -/
theorem from_to_eq (g : GradingResult) :
    grading_result_from_storage (grading_result_to_storage g) =
      .ok { g with overall_comment := pyStrip g.overall_comment,
                   revision_example := pyStrip g.revision_example } := by
  rw [show grading_result_from_storage (grading_result_to_storage g) =
    (match storageScores (g.scores.map scoreToStorage) with
     | .error e => .error e
     | .ok scores =>
         .ok { scenario_name := g.scenario_name, scores := scores,
               total_score := g.total_score,
               max_total_score := g.max_total_score,
               overall_comment := pyStrip g.overall_comment,
               revision_example := pyStrip g.revision_example,
               model_info := g.model_info,
               raw_json := g.raw_json } : Except PyError GradingResult) from rfl]
  rw [storageScores_map g.scores]

/-- C2 counterexample: a GradingResult with non-empty scores whose
`overall_comment` carries surrounding whitespace does not survive the
storage round trip unchanged. -/
theorem storage_round_trip_counterexample :
    c2Bad.scores ≠ [] ∧
    grading_result_from_storage (grading_result_to_storage c2Bad) ≠ .ok c2Bad := by
  refine ⟨by simp [c2Bad], fun h => ?_⟩
  rw [from_to_eq c2Bad] at h
  simp only [Except.ok.injEq] at h
  have h2 := congrArg GradingResult.overall_comment h
  exact absurd h2 (by decide)

/-- C2 amended: the storage round trip reproduces every GradingResult
with non-empty scores whose `overall_comment` and `revision_example`
carry no surrounding whitespace (as is the case for every
parser-produced result); `raw_llm_output` is always written by
`grading_result_to_storage`, so the empty-object default never fires on
round-tripped records. -/
theorem storage_round_trip_trimmed (g : GradingResult) (hs : g.scores ≠ [])
    (hoc : pyStrip g.overall_comment = g.overall_comment)
    (hre : pyStrip g.revision_example = g.revision_example) :
    grading_result_from_storage (grading_result_to_storage g) = .ok g := by
  rw [from_to_eq g, hoc, hre]

/-- Witness for the amended C2 at the §8 grading result. -/
theorem storage_round_trip_trimmed_witness :
    wGrading.scores ≠ [] ∧
    pyStrip wGrading.overall_comment = wGrading.overall_comment ∧
    pyStrip wGrading.revision_example = wGrading.revision_example ∧
    grading_result_from_storage (grading_result_to_storage wGrading) =
      .ok wGrading :=
  ⟨by intro h; simp [wGrading] at h, by decide, by decide,
   storage_round_trip_trimmed wGrading
     (by intro h; simp [wGrading] at h) (by decide) (by decide)⟩

-- ----------------- C8 -----------------

/-- C8: a scores entry without `max_score` parses with `max_score = 5`;
an absent `overall_comment`/`revision_example` yields the empty string;
a present one is stored trimmed of surrounding whitespace. -/
theorem grading_parse_defaults :
    (∀ (fields : List (String × Json)) (r : RubricScoreResult),
        jGet fields "max_score" = none →
        parseScoreEntry (.obj fields) = .ok r → r.max_score = 5)
    ∧ (∀ (n : String) (mi : Json) (fields : List (String × Json))
        (r : GradingResult),
        parseGradingData n mi (some (.obj fields)) = .ok r →
        (jGet fields "overall_comment" = none → r.overall_comment = "")
        ∧ (jGet fields "revision_example" = none → r.revision_example = "")
        ∧ (∀ c, jGet fields "overall_comment" = some (.str c) →
            r.overall_comment = pyStrip c)
        ∧ (∀ c, jGet fields "revision_example" = some (.str c) →
            r.revision_example = pyStrip c)) := by
  constructor
  · intro fields r hmax h
    simp only [parseScoreEntry, hmax, Option.getD_none, pyIntCoerce] at h
    split at h
    · simp at h
    rename_i sv hsv
    split at h
    · simp at h
    rename_i score hscore
    split at h
    · simp at h
    rename_i nm hnm
    simp only [Except.ok.injEq] at h
    subst h
    rfl
  · intro n mi fields r h
    obtain ⟨items, scores, t, m, hit, hgl, hoc, hre, _, _, _, _, _, _⟩ :=
      parseGradingData_ok_inv n mi fields r h
    refine ⟨?_, ?_, ?_, ?_⟩
    · intro hnone
      simp only [optStrField, hnone, Except.ok.injEq] at hoc
      exact hoc.symm
    · intro hnone
      simp only [optStrField, hnone, Except.ok.injEq] at hre
      exact hre.symm
    · intro c hsome
      simp only [optStrField, hsome, Except.ok.injEq] at hoc
      exact hoc.symm
    · intro c hsome
      simp only [optStrField, hsome, Except.ok.injEq] at hre
      exact hre.symm

/-- Witness for C8: a concrete entry without `max_score` and a concrete
object with a padded `overall_comment` and no `revision_example`. -/
theorem grading_parse_defaults_witness :
    jGet [("name", Json.str "T"), ("score", Json.num 3)] "max_score" = none ∧
    parseScoreEntry (.obj [("name", Json.str "T"), ("score", Json.num 3)]) =
      .ok ⟨.str "T", 3, 5⟩ ∧
    (⟨Json.str "T", 3, 5⟩ : RubricScoreResult).max_score = 5 ∧
    parseGradingData "s" .null (some (.obj c8Fields)) = .ok c8Result ∧
    jGet c8Fields "overall_comment" = some (.str "  Good  ") ∧
    c8Result.overall_comment = pyStrip "  Good  " ∧
    jGet c8Fields "revision_example" = none ∧
    c8Result.revision_example = "" :=
  ⟨rfl, rfl,
   grading_parse_defaults.1 [("name", Json.str "T"), ("score", Json.num 3)]
     ⟨.str "T", 3, 5⟩ rfl rfl,
   rfl, rfl,
   (grading_parse_defaults.2 "s" .null c8Fields c8Result rfl).2.2.1
     "  Good  " rfl,
   rfl,
   (grading_parse_defaults.2 "s" .null c8Fields c8Result rfl).2.1 rfl⟩

-- ----------------- C10 -----------------

/-- C10 counterexample: a valid JSON object with no `scores` key can
still make the parse step raise — here `overall_comment` is a number,
so `.strip()` raises AttributeError. -/
theorem missing_scores_key_counterexample :
    jGet c10Fields "scores" = none ∧
    exOk (parseGradingData "s" .null (some (.obj c10Fields))) = false :=
  ⟨rfl, rfl⟩

theorem optStrField_ok_of_not_ill (fields : List (String × Json)) (key : String)
    (h : strFieldIllFormed fields key = false) :
    ∃ v, optStrField fields key = .ok v := by
  cases hj : jGet fields key with
  | none => exact ⟨"", by simp [optStrField, hj]⟩
  | some v =>
      cases v with
      | str s2 => exact ⟨pyStrip s2, by simp [optStrField, hj]⟩
      | null => simp [strFieldIllFormed, hj] at h
      | bool b => simp [strFieldIllFormed, hj] at h
      | num x => simp [strFieldIllFormed, hj] at h
      | arr xs => simp [strFieldIllFormed, hj] at h
      | obj fs => simp [strFieldIllFormed, hj] at h

/-- C10 amended: when the parsed object has no `scores` key and its
`overall_comment`/`revision_example`, if present, are strings, the parse
step returns a GradingResult with empty scores, `total_score = 0` and
`max_total_score = 0`. -/
theorem missing_scores_key_amended (n : String) (mi : Json)
    (fields : List (String × Json))
    (hs : jGet fields "scores" = none)
    (hoc : strFieldIllFormed fields "overall_comment" = false)
    (hre : strFieldIllFormed fields "revision_example" = false) :
    ∃ r, parseGradingData n mi (some (.obj fields)) = .ok r ∧
      r.scores = [] ∧ r.total_score = 0 ∧ r.max_total_score = 0 := by
  obtain ⟨oc, hoc2⟩ := optStrField_ok_of_not_ill fields "overall_comment" hoc
  obtain ⟨re, hre2⟩ := optStrField_ok_of_not_ill fields "revision_example" hre
  refine ⟨{ scenario_name := n, scores := [], total_score := 0,
            max_total_score := 0, overall_comment := oc,
            revision_example := re, model_info := mi,
            raw_json := .obj fields }, ?_, rfl, rfl, rfl⟩
  simp [parseGradingData, iterItems, hs, gradeLoop, hoc2, hre2]

/-- Witness for the amended C10 at the empty JSON object. -/
theorem missing_scores_key_amended_witness :
    jGet [] "scores" = none ∧
    strFieldIllFormed [] "overall_comment" = false ∧
    strFieldIllFormed [] "revision_example" = false ∧
    ∃ r, parseGradingData "s" .null (some (.obj [])) = .ok r ∧
      r.scores = [] ∧ r.total_score = 0 ∧ r.max_total_score = 0 :=
  ⟨rfl, rfl, rfl, missing_scores_key_amended "s" .null [] rfl rfl rfl⟩

-- ----------------- C3 -----------------

theorem parseScoreEntry_exOk (item : Json) :
    exOk (parseScoreEntry item) = !entryIllFormed item := by
  cases item with
  | obj fields =>
      simp only [parseScoreEntry, entryIllFormed]
      cases hsc : jGet fields "score" with
      | none => simp [exOk]
      | some sv =>
          have hjc : jsonIntCoercible sv = exOk (pyIntCoerce sv) := rfl
          cases hpc : pyIntCoerce sv with
          | error e =>
              rw [hpc] at hjc
              simp [exOk, hjc, hpc]
          | ok score =>
              rw [hpc] at hjc
              cases hmx : jGet fields "max_score" with
              | none =>
                  simp only [Option.getD_none]
                  have h5 : pyIntCoerce (Json.num 5) = .ok 5 := rfl
                  rw [h5]
                  cases hnm : jGet fields "name" with
                  | none => simp [exOk, hjc, hpc]
                  | some nm => simp [exOk, hjc, hpc]
              | some mv =>
                  have hjm : jsonIntCoercible mv = exOk (pyIntCoerce mv) := rfl
                  simp only [Option.getD_some]
                  cases hpm : pyIntCoerce mv with
                  | error e =>
                      rw [hpm] at hjm
                      simp [exOk, hjc, hjm, hpc, hpm]
                  | ok mx =>
                      rw [hpm] at hjm
                      cases hnm : jGet fields "name" with
                      | none => simp [exOk, hjc, hjm, hpc, hpm]
                      | some nm => simp [exOk, hjc, hjm, hpc, hpm]
  | null => rfl
  | bool b => rfl
  | num x => rfl
  | str s2 => rfl
  | arr xs => rfl

theorem gradeLoop_exOk (items : List Json) :
    exOk (gradeLoop items) = !items.any entryIllFormed := by
  induction items with
  | nil => rfl
  | cons item rest ih =>
      simp only [gradeLoop, List.any_cons]
      have hpe := parseScoreEntry_exOk item
      cases hb : entryIllFormed item with
      | true =>
          rw [hb] at hpe
          cases hp : parseScoreEntry item with
          | error e => simp [exOk]
          | ok r => rw [hp] at hpe; simp [exOk] at hpe
      | false =>
          rw [hb] at hpe
          cases hp : parseScoreEntry item with
          | error e => rw [hp] at hpe; simp [exOk] at hpe
          | ok r =>
              simp only [Bool.false_or]
              cases hg : gradeLoop rest with
              | error e =>
                  rw [hg] at ih
                  simp only [exOk] at ih ⊢
                  exact ih
              | ok tri =>
                  obtain ⟨s0, t0, m0⟩ := tri
                  rw [hg] at ih
                  simp only [exOk] at ih ⊢
                  exact ih

theorem optStrField_exOk (fields : List (String × Json)) (key : String) :
    exOk (optStrField fields key) = !strFieldIllFormed fields key := by
  simp only [optStrField, strFieldIllFormed]
  cases hj : jGet fields key with
  | none => rfl
  | some v =>
      cases v with
      | str s2 => rfl
      | null => rfl
      | bool b => rfl
      | num x => rfl
      | arr xs => rfl
      | obj fs => rfl

theorem comments_exOk (fields : List (String × Json)) (n : String) (mi : Json)
    (data : Json) (scores : List RubricScoreResult) (ts ms : Int) :
    exOk ((match optStrField fields "overall_comment" with
           | .error e => .error e
           | .ok overallComment =>
               match optStrField fields "revision_example" with
               | .error e => .error e
               | .ok revisionExample =>
                   .ok { scenario_name := n, scores := scores,
                         total_score := ts, max_total_score := ms,
                         overall_comment := overallComment,
                         revision_example := revisionExample,
                         model_info := mi, raw_json := data }
           : Except PyError GradingResult)) =
      (!strFieldIllFormed fields "overall_comment"
        && !strFieldIllFormed fields "revision_example") := by
  have hoc := optStrField_exOk fields "overall_comment"
  have hre := optStrField_exOk fields "revision_example"
  cases hc1 : optStrField fields "overall_comment" with
  | error e =>
      rw [hc1] at hoc; simp only [exOk, Bool.false_eq, Bool.not_eq_false] at hoc
      simp [exOk, hoc]
  | ok oc =>
      rw [hc1] at hoc; simp only [exOk, Bool.true_eq, Bool.not_eq_true] at hoc
      cases hc2 : optStrField fields "revision_example" with
      | error e =>
          rw [hc2] at hre; simp only [exOk, Bool.false_eq, Bool.not_eq_false] at hre
          simp [exOk, hoc, hre]
      | ok re =>
          rw [hc2] at hre; simp only [exOk, Bool.true_eq, Bool.not_eq_true] at hre
          simp [exOk, hoc, hre]

/-- C3 amended: the grading parse step raises exactly when the backend
text is not valid JSON, or parses to a non-object, or the `scores` value
is present but is a non-empty non-array iterable or not iterable, or
some scores entry is not an object, lacks `score`, has a
non-integer-coercible `score` or `max_score`, or lacks `name`, or a
present `overall_comment`/`revision_example` is not a string.  (The
code raises built-in Python exceptions — `json.JSONDecodeError`,
`KeyError`, `TypeError`, `ValueError`, `AttributeError`; it defines no
`GradingFormatError` class.  Malformed JSON therefore raises rather
than yielding a silently empty result.) -/
theorem grading_parse_fails_iff (n : String) (mi : Json) (odata : Option Json) :
    exOk (parseGradingData n mi odata) = !gradingParseFails odata := by
  cases odata with
  | none => rfl
  | some data =>
      cases data with
      | obj fields =>
          simp only [parseGradingData, gradingParseFails, scoresIllFormed,
            iterItems]
          cases hsc : jGet fields "scores" with
          | none =>
              simp only [gradeLoop, Bool.false_or, Bool.not_or]
              exact comments_exOk fields n mi (.obj fields) [] 0 _
          | some v =>
              cases v with
              | arr xs =>
                  simp only []
                  have hgl := gradeLoop_exOk xs
                  cases hg : gradeLoop xs with
                  | error e =>
                      rw [hg] at hgl
                      simp only [exOk, Bool.false_eq, Bool.not_eq_false] at hgl
                      simp [exOk, hgl]
                  | ok tri =>
                      obtain ⟨s0, t0, m0⟩ := tri
                      rw [hg] at hgl
                      simp only [exOk, Bool.true_eq, Bool.not_eq_true] at hgl
                      simp only [hgl, Bool.false_or, Bool.not_or]
                      exact comments_exOk fields n mi (.obj fields) s0 t0 _
              | str s2 =>
                  rcases eq_or_ne s2 "" with he | he
                  · subst he
                    have hd : (!decide (("" : String) = "")) = false := by simp
                    simp only [if_pos rfl, gradeLoop, hd, Bool.false_or,
                      Bool.not_or]
                    exact comments_exOk fields n mi (.obj fields) [] 0 _
                  · simp [exOk, he]
              | obj fs =>
                  cases fs with
                  | nil =>
                      simp only [List.isEmpty_nil, if_pos rfl, gradeLoop,
                        Bool.not_true, Bool.false_or, Bool.not_or]
                      exact comments_exOk fields n mi (.obj fields) [] 0 _
                  | cons p rest => simp [exOk]
              | null => rfl
              | bool b => rfl
              | num x => rfl
      | null => rfl
      | bool b => rfl
      | num x => rfl
      | str s2 => rfl
      | arr xs => rfl

/-- C3 counterexample: `c3Data` is valid JSON (an object), its single
scores entry has a `name` and an integer-coercible `score`, yet the
parse step still raises (ValueError from `int("abc")` on `max_score`) —
refuting the claimed three-condition characterization. -/
theorem grading_parse_conditions_counterexample :
    exOk (parseGradingData "s" .null c3Data) = false ∧
    c3Data.isSome = true ∧
    jGet [("name", Json.str "Tone"), ("score", Json.num 4),
          ("max_score", Json.str "abc")] "name" = some (.str "Tone") ∧
    jsonIntCoercible (Json.num 4) = true :=
  ⟨rfl, rfl, rfl, rfl⟩

-- ----------------- C6 -----------------

theorem stripChars_append_newline (l : List Char) :
    stripChars (l ++ ['\n']) = stripChars l := by
  simp [stripChars, List.reverse_append, List.dropWhile_cons, isPyWS]

theorem pyStrip_append_newline (s : String) :
    pyStrip (s ++ "\n") = pyStrip s := by
  cases s with
  | mk l =>
      show String.mk (stripChars (String.mk l ++ "\n").data) = _
      have hd : (String.mk l ++ "\n").data = l ++ ['\n'] := rfl
      rw [hd, stripChars_append_newline]
      rfl

theorem str_shuffle (x j : String) :
    ((x ++ "\n") ++ "\n") ++ (j ++ "\n") = ((x ++ "\n\n") ++ j) ++ "\n" := by
  cases x with
  | mk a =>
      cases j with
      | mk b =>
          show String.mk (((a ++ ['\n']) ++ ['\n']) ++ (b ++ ['\n'])) =
            String.mk (((a ++ ['\n', '\n']) ++ b) ++ ['\n'])
          apply congrArg
          simp

theorem threadLines_join (i : Nat) (m : EmailMessage)
    (rest : List EmailMessage) :
    pyJoin "\n" (threadLines i (m :: rest)) =
      pyJoin "\n\n" (amendedBlocks i (m :: rest)) ++ "\n" := by
  induction rest generalizing i m with
  | nil => rfl
  | cons m2 rest2 ih =>
      show (headerLine i m ++ "\n" ++ pyStrip m.body ++ "\n") ++ "\n"
          ++ pyJoin "\n" (threadLines (i + 1) (m2 :: rest2)) =
        ((headerLine i m ++ "\n" ++ pyStrip m.body) ++ "\n\n"
          ++ pyJoin "\n\n" (amendedBlocks (i + 1) (m2 :: rest2))) ++ "\n"
      rw [ih]
      exact str_shuffle (headerLine i m ++ "\n" ++ pyStrip m.body)
        (pyJoin "\n\n" (amendedBlocks (i + 1) (m2 :: rest2)))

/-- C6 counterexample: with a subject that ends in a space the code
trims the header line, so `_thread_to_text` differs from the claimed
exact `Message N — From: <sender> | Subject: <subject>` format. -/
theorem thread_text_exact_format_counterexample :
    _thread_to_text c6Thread ≠ claimedThreadText c6Thread := by decide

/-- C6 amended: for a non-empty thread the serialization is the
blank-line join, in thread order, of blocks consisting of the header
interpolation trimmed of surrounding whitespace followed by the trimmed
body, the whole text finally trimmed of surrounding whitespace. -/
theorem thread_text_amended_format (thread : List EmailMessage)
    (h : thread ≠ []) :
    _thread_to_text thread = amendedThreadText thread := by
  cases thread with
  | nil => exact absurd rfl h
  | cons m rest =>
      show pyStrip (pyJoin "\n" (threadLines 1 (m :: rest))) = _
      rw [threadLines_join, pyStrip_append_newline]
      rfl

/-- Witness for the amended C6 at a concrete one-message thread. -/
theorem thread_text_amended_format_witness :
    c6Thread ≠ [] ∧ _thread_to_text c6Thread = amendedThreadText c6Thread :=
  ⟨by simp [c6Thread],
   thread_text_amended_format c6Thread (by simp [c6Thread])⟩

end EmailAgentModel
